import Mathlib

/-!
Shallow embedding of the Orion changepoint interpretation and rendering
engine (`orion/report.py` and `orion/visualization.py`).

Python strings are modelled as Lean `String`s; the string manipulations the
code performs (`split`, `strip`, `lower`, `replace`, substring tests) are
implemented below on `List Char` by structural recursion so that concrete
instances evaluate inside the kernel.  Python floats are modelled as exact
rationals (`ℚ`); Python's `dict` iteration order is modelled with ordered
association lists; absent JSON fields are modelled with `Option`.
-/

/-- Character-level test `a == b` used by the list string utilities. -/
def charEq (a b : Char) : Bool := a == b

/-- Remove every occurrence of character `c` (models `str.replace(c, "")`
for a one-character pattern, as used on `"["` and `"]"`). -/
def removeChar (c : Char) (l : List Char) : List Char :=
  l.filter (fun x => !(x == c))

/-- Split a character list on separator `c` (models Python
`str.split(sep)` for a one-character separator: `"".split(sep) == [""]`,
and empty segments are kept). -/
def splitOnChar (c : Char) : List Char → List (List Char)
  | [] => [[]]
  | x :: xs =>
    let r := splitOnChar c xs
    if x == c then
      [] :: r
    else
      match r with
      | [] => [[x]]
      | h :: t => (x :: h) :: t

/-- Strip every trailing occurrence of `c` (models `str.rstrip(c)` for a
one-character argument). -/
def dropTrailing (c : Char) (l : List Char) : List Char :=
  (l.reverse.dropWhile (fun x => x == c)).reverse

/-- Strip leading and trailing whitespace (models `str.strip()`). -/
def trimChars (l : List Char) : List Char :=
  ((l.dropWhile Char.isWhitespace).reverse.dropWhile Char.isWhitespace).reverse

/-- ASCII lower-casing of one character (models `str.lower()` on the ASCII
strings the code handles). -/
def lowerChar (c : Char) : Char :=
  if 'A' ≤ c ∧ c ≤ 'Z' then Char.ofNat (c.toNat + 32) else c

/-- Lower-case a whole character list. -/
def lowerChars (l : List Char) : List Char := l.map lowerChar

/-- `startsWithChars n h` holds when `n` is an initial segment of `h`. -/
def startsWithChars : List Char → List Char → Bool
  | [], _ => true
  | _ :: _, [] => false
  | a :: as, b :: bs => a == b && startsWithChars as bs

/-- `containsSub n h` models Python's substring test `n in h`; in
particular the empty string is contained in every string. -/
def containsSub : List Char → List Char → Bool
  | n, [] => n.isEmpty
  | n, x :: xs => startsWithChars n (x :: xs) || containsSub n xs

/-- A Python value as it appears in a metric's `value` field: either a
float (modelled as an exact rational) or some other value carried only for
its string form. -/
inductive PyVal where
  | float (q : ℚ)
  | strv (s : String)
deriving DecidableEq

/-- One metric's observation inside a run record; every field may be
absent in the JSON, hence the `Option`s (`entry.get` defaults apply at the
use sites, exactly as in the Python code). -/
structure MetricSample where
  value : Option PyVal := none
  percentage_change : Option ℚ := none
  labels : Option String := none
deriving DecidableEq

/-- The optional `github_context` object of a run record. -/
structure GithubCtx where
  current_version : Option String := none
  previous_version : Option String := none
deriving DecidableEq

/-- One element of the ordered per-workload JSON array (§6 input record
schema).  `metrics` is an ordered association list modelling the Python
dict in insertion order. -/
structure Run where
  is_changepoint : Bool := false
  metrics : List (String × MetricSample) := []
  github_context : Option GithubCtx := none
  ocpVersion : Option String := none
  buildUrl : Option String := none
  prs : Option (List String) := none
deriving DecidableEq

/-- A derived changepoint record, as built by `extract_changepoints`. -/
structure Changepoint where
  current_version : String
  previous_version : String
  build_url : String
  prs : List String
  regressed_metrics : List (String × MetricSample)
deriving DecidableEq

/-- The `regressed` dict comprehension of `extract_changepoints`
(report.py lines 77-80): the metrics whose `percentage_change`
(defaulting to 0 when absent) is non-zero, in dict order. -/
def regressedOf (e : Run) : List (String × MetricSample) :=
  e.metrics.filter (fun nm => decide (nm.2.percentage_change.getD 0 ≠ 0))

/-- `current_version` resolution of report.py line 85:
`github_ctx.get("current_version", "") or entry.get("ocpVersion", "unknown")`. -/
def resolve_current (e : Run) : String :=
  let cv := (e.github_context.getD {}).current_version.getD ""
  if cv = "" then e.ocpVersion.getD "unknown" else cv

/-- `previous_version` resolution of report.py lines 86-88.  The Python
code indexes `data[i - 1]`; here `prev` carries that predecessor run
(`none` exactly when `i = 0`). -/
def resolve_previous (gp : Option String) (prev : Option Run) : String :=
  let pv := gp.getD ""
  if pv = "" then
    match prev with
    | some p => p.ocpVersion.getD "unknown"
    | none => pv
  else pv

/-- Builds the changepoint dict appended by report.py lines 90-96. -/
def mkChangepoint (prev : Option Run) (e : Run) : Changepoint :=
  { current_version := resolve_current e
    previous_version := resolve_previous ((e.github_context.getD {}).previous_version) prev
    build_url := e.buildUrl.getD ""
    prs := e.prs.getD []
    regressed_metrics := regressedOf e }

/-- The loop of `extract_changepoints`, with the predecessor run carried
explicitly instead of the Python index `i` (the index is used only for the
`i > 0` test and the `data[i - 1]` lookup). -/
def extractFrom : Option Run → List Run → List Changepoint
  | _, [] => []
  | prev, e :: rest =>
    if e.is_changepoint then
      if (regressedOf e).isEmpty then extractFrom (some e) rest
      else mkChangepoint prev e :: extractFrom (some e) rest
    else extractFrom (some e) rest

/-- `extract_changepoints` (report.py lines 63-98). -/
def extract_changepoints (data : List Run) : List Changepoint :=
  extractFrom none data

/-- Round a nonnegative rational to the nearest integer, ties to even
(the rounding Python's fixed-point float formatting performs at the chosen
precision).  It is only ever applied to `|q| * 10 ^ p`, which is
nonnegative. -/
def roundHalfEven (q : ℚ) : ℤ :=
  let f : ℤ := ⌊q⌋
  let r : ℚ := q - f
  if r < 1 / 2 then f
  else if 1 / 2 < r then f + 1
  else if f % 2 = 0 then f else f + 1

/-- Left-pad a digit list with `'0'` up to length `n`. -/
def padZeros (n : ℕ) (l : List Char) : List Char :=
  List.replicate (n - l.length) '0' ++ l

/-- Fixed-point rendering `f"{q:.pf}"` of a rational with `p` decimal
places (round half to even, leading `-` for negative values). -/
def formatFixed (q : ℚ) (p : ℕ) : String :=
  let n : ℤ := roundHalfEven (|q| * 10 ^ p)
  let ds : List Char := padZeros (p + 1) (Nat.repr n.toNat).data
  let intPart : List Char := ds.take (ds.length - p)
  let fracPart : List Char := ds.drop (ds.length - p)
  (if q < 0 then "-" else "") ++ String.mk intPart ++
    (if p = 0 then "" else "." ++ String.mk fracPart)

/-- Walk a reversed digit list, inserting a comma before every digit
whose position is a positive multiple of 3 (thousands grouping seen from
the right). -/
def commaGroupRevGo (i : ℕ) : List Char → List Char
  | [] => []
  | x :: xs =>
    if i % 3 = 0 ∧ i ≠ 0 then ',' :: x :: commaGroupRevGo (i + 1) xs
    else x :: commaGroupRevGo (i + 1) xs

/-- Insert a comma after every third character of a reversed digit list. -/
def commaGroupRev (l : List Char) : List Char := commaGroupRevGo 0 l

/-- Thousands-grouped integer rendering `f"{q:,.0f}"` (round half to
even, groups of three digits separated by commas). -/
def formatGrouped (q : ℚ) : String :=
  (if q < 0 then "-" else "") ++
    String.mk (commaGroupRev (Nat.repr (roundHalfEven |q|).toNat).data.reverse).reverse

/-- `.rstrip("0").rstrip(".")` applied to a rendered number. -/
def stripTrailingZerosDot (s : String) : String :=
  String.mk ((dropTrailing '.' (dropTrailing '0' s.data)))

/-- `_format_metric_value` (report.py lines 101-109). -/
def format_metric_value : PyVal → String
  | .strv s => s
  | .float q =>
    if 1000000 ≤ |q| then formatGrouped q
    else if 1 ≤ |q| then formatFixed q 4
    else stripTrailingZerosDot (formatFixed q 10)

/-- Inner loop body of `_extract_components`: process one label string,
adding the surviving segments to the accumulated component list (the
Python `set` is modelled as a deduplicating insertion-ordered list). -/
def addComponents (acc : List String) (label : String) : List String :=
  (splitOnChar '/' (removeChar ']' (removeChar '[' label.data))).foldl
    (fun acc part =>
      let part : String := String.mk (lowerChars (trimChars part))
      if part ≠ "" ∧ part ≠ "jira:" ∧ part ∉ acc then acc ++ [part] else acc)
    acc

/-- `_extract_components` (report.py lines 112-125). -/
def extract_components (regressed_metrics : List (String × MetricSample)) : List String :=
  regressed_metrics.foldl
    (fun acc nm => addComponents acc (nm.2.labels.getD ""))
    []

/-- The `repo_name` computation of `_sort_prs_by_relevance` (report.py
line 136-137): strip trailing `/`, split on `/`, and take the lower-cased
third-from-last segment when at least 4 segments exist, else `""`. -/
def repoNameOf (pr_url : String) : String :=
  let parts := splitOnChar '/' (dropTrailing '/' pr_url.data)
  if 4 ≤ parts.length then String.mk (lowerChars (parts.getD (parts.length - 3) []))
  else ""

/-- The per-URL classification test of `_sort_prs_by_relevance` (line
138): `any(comp in repo_name or repo_name in comp for comp in components)`. -/
def prMatches (components : List String) (pr_url : String) : Bool :=
  components.any (fun comp =>
    containsSub comp.data (repoNameOf pr_url).data ||
      containsSub (repoNameOf pr_url).data comp.data)

/-- `_sort_prs_by_relevance` (report.py lines 128-142); returns
`(matching, others)` preserving input order within each list. -/
def sort_prs_by_relevance (prs : List String) (components : List String) :
    List String × List String :=
  match prs with
  | [] => ([], [])
  | pr_url :: rest =>
    let r := sort_prs_by_relevance rest components
    if prMatches components pr_url then (pr_url :: r.1, r.2)
    else (r.1, pr_url :: r.2)

/-- The per-workload classification string printed by `generate_report`
(report.py lines 203-220). -/
def classify_workload (data : List Run) : String :=
  if data.isEmpty then "SKIP (no data)"
  else if (extract_changepoints data).isEmpty then "PASS (no changepoints)"
  else "REGRESSION DETECTED"

/-- One iteration of the `generate_report` loop over the accumulated
counters `(regression_count, pass_count, skip_count)` (report.py lines
203-223). -/
def reportStep (acc : ℕ × ℕ × ℕ) (wd : String × List Run) : ℕ × ℕ × ℕ :=
  if wd.2.isEmpty then (acc.1, acc.2.1, acc.2.2 + 1)
  else if (extract_changepoints wd.2).isEmpty then (acc.1, acc.2.1 + 1, acc.2.2)
  else (acc.1 + 1, acc.2.1, acc.2.2)

/-- The counter values after the `generate_report` loop:
`(regression_count, pass_count, skip_count)`. -/
def reportCounts (l : List (String × List Run)) : ℕ × ℕ × ℕ :=
  l.foldl reportStep (0, 0, 0)

/-- `generate_report` (report.py lines 184-236), reduced to its
observable result: the workload mapping is traversed in sorted name order
(`sorted(json_data_by_workload.items())`), the three counters are
accumulated, and the function returns `regression_count > 0`. -/
def generate_report (json_data_by_workload : List (String × List Run)) : Bool :=
  let sorted := json_data_by_workload.mergeSort (fun a b => decide (a.1 ≤ b.1))
  decide (0 < (reportCounts sorted).1)

/-- `pct_change` for one changepoint stat (visualization.py lines
151-156 and 248-254): 0 when the before-mean is 0, else the relative
change in percent. -/
def cp_pct_change (mean_1 mean_2 : ℚ) : ℚ :=
  if mean_1 = 0 then 0 else (mean_2 - mean_1) / mean_1 * 100

/-- The regression classification shared by marker colouring and the
title summary (visualization.py lines 158-159 and 255-258):
`(pct_change * direction > 0) or direction == 0`. -/
def is_regression (pct_change : ℚ) (direction : ℤ) : Bool :=
  decide (0 < pct_change * (direction : ℚ)) || decide (direction = 0)

/-- Marker/summary colour choice (visualization.py lines 160 and 259):
red `#ff4444` when adverse, green `#39ff14` otherwise. -/
def cp_color (pct_change : ℚ) (direction : ℤ) : String :=
  if is_regression pct_change direction then "#ff4444" else "#39ff14"

/-- The y-axis span substitution of visualization.py line 213:
`y_span = y_max - y_min if y_max != y_min else abs(y_max) * 0.1 or 1`
(Python's `or 1` replaces a zero result by 1). -/
def ySpanOf (y_min y_max : ℚ) : ℚ :=
  if y_max ≠ y_min then y_max - y_min
  else if |y_max| * (1 / 10) ≠ 0 then |y_max| * (1 / 10)
  else 1

/-- The y-axis padding of visualization.py line 214: `y_pad = y_span * 0.15`. -/
def yPadOf (y_min y_max : ℚ) : ℚ := ySpanOf y_min y_max * (15 / 100)

/-- The y-axis range of visualization.py line 219:
`[y_min - y_pad, y_max + y_pad]`. -/
def yAxisRange (y_min y_max : ℚ) : ℚ × ℚ :=
  (y_min - yPadOf y_min y_max, y_max + yPadOf y_min y_max)

/-- A Boolean restatement of the `REGRESSION DETECTED` condition of one
workload, used to relate `reportCounts` to the classification. -/
def workloadRegressed (wd : String × List Run) : Bool :=
  !wd.2.isEmpty && !(extract_changepoints wd.2).isEmpty

/-- Concrete run used by witnesses: a flagged changepoint with one metric
whose `percentage_change` is non-zero. -/
def runCp : Run :=
  { is_changepoint := true
    metrics := [("podReadyLatency", { percentage_change := some 5, value := some (.float 3) })] }

/-- Concrete run used by witnesses: not flagged as a changepoint. -/
def runPlain : Run :=
  { metrics := [("podReadyLatency", { percentage_change := some 5 })] }

/-- Concrete run used by witnesses: flagged as a changepoint, but its only
metric sample lacks the `percentage_change` field entirely. -/
def runNoPct : Run :=
  { is_changepoint := true
    metrics := [("podReadyLatency", { labels := some "[Jira: etcd]" })] }

/-- Concrete run used by witnesses: a predecessor run carrying a legacy
`ocpVersion` field. -/
def runPrev : Run := { ocpVersion := some "4.18.0" }

/-- Concrete metric sample whose `labels` string is the one from the
specification's label-extraction example. -/
def sampleJira : MetricSample :=
  { percentage_change := some 5
    labels := some "[Jira: Networking / ovn-kubernetes]" }

/-- C4: for every percentage change `p` and direction `d`, the regression
classifier reports adverse iff `p * d > 0` or `d = 0`; in particular
`d = -1, p = +5` is not adverse, `d = -1, p = -5` is adverse, and `d = 0`
is always adverse. -/
theorem c4_regression_classifier :
    ∀ (p : ℚ) (d : ℤ),
      (is_regression p d = true ↔ (0 < p * (d : ℚ) ∨ d = 0)) ∧
      is_regression 5 (-1) = false ∧
      is_regression (-5) (-1) = true ∧
      is_regression p 0 = true := by
  intro p d
  refine ⟨?_, ?_, ?_, ?_⟩
  · simp [is_regression]
  · simp only [is_regression, Bool.or_eq_false_iff, decide_eq_false_iff_not]
    norm_num
  · simp only [is_regression, Bool.or_eq_true, decide_eq_true_eq]
    norm_num
  · simp [is_regression]

/-- C9: a changepoint stat whose before-mean is 0 gets `pct_change = 0`,
is classified adverse iff the configured direction is 0, and is coloured
green for directions `-1`/`+1` (red for direction 0) no matter what the
after-mean is. -/
theorem c9_zero_mean_before :
    ∀ (mean_2 : ℚ) (d : ℤ),
      cp_pct_change 0 mean_2 = 0 ∧
      (is_regression (cp_pct_change 0 mean_2) d = true ↔ d = 0) ∧
      (d ≠ 0 → cp_color (cp_pct_change 0 mean_2) d = "#39ff14") ∧
      cp_color (cp_pct_change 0 mean_2) 0 = "#ff4444" := by
  intro mean_2 d
  have h0 : cp_pct_change 0 mean_2 = 0 := by simp [cp_pct_change]
  have hreg : ∀ d' : ℤ, is_regression (cp_pct_change 0 mean_2) d' = decide (d' = 0) := by
    intro d'
    simp [h0, is_regression]
  refine ⟨h0, ?_, ?_, ?_⟩
  · rw [hreg]
    simp
  · intro hd
    rw [cp_color, hreg]
    simp [hd]
  · rw [cp_color, hreg]
    simp

/-- C9 witness: a changepoint with before-mean 0, after-mean 42 and
direction `-1` is rendered green. -/
theorem c9_zero_mean_before_witness :
    cp_color (cp_pct_change 0 42) (-1) = "#39ff14" :=
  (c9_zero_mean_before 42 (-1)).2.2.1 (by decide)

/-- C3 counterexample: for the constant series with value 2 the span is
zero and the code pads by `2 * 0.1 * 0.15 = 0.03`, not by 10% of the
magnitude (`0.2`); for the constant zero series it pads by `0.15`, not by
a unit amount. -/
theorem c3_counterexample :
    yPadOf 2 2 = 3 / 100 ∧ ((3 : ℚ) / 100 ≠ (1 / 10) * 2) ∧
    yPadOf 0 0 = 15 / 100 ∧ ((15 : ℚ) / 100 ≠ 1) := by
  refine ⟨?_, by norm_num, ?_, by norm_num⟩
  · rw [yPadOf, ySpanOf]
    norm_num
  · rw [yPadOf, ySpanOf]
    norm_num

/-- C3 (amended): the y-axis range is `[min - pad, max + pad]` where the
pad is 15% of the value span when the span is non-zero; when the span is
zero the span is first replaced by 10% of the series magnitude (or by the
unit 1 when the magnitude is also zero) and the pad is 15% of that
replacement, i.e. 1.5% of the magnitude, or 0.15. -/
theorem c3_y_axis_padding :
    ∀ (y_min y_max : ℚ),
      yAxisRange y_min y_max = (y_min - yPadOf y_min y_max, y_max + yPadOf y_min y_max) ∧
      (y_max ≠ y_min → yPadOf y_min y_max = (y_max - y_min) * (15 / 100)) ∧
      (y_max = y_min → y_max ≠ 0 → yPadOf y_min y_max = |y_max| * (15 / 1000)) ∧
      (y_max = y_min → y_max = 0 → yPadOf y_min y_max = 15 / 100) := by
  intro y_min y_max
  refine ⟨rfl, ?_, ?_, ?_⟩
  · intro h
    rw [yPadOf, ySpanOf, if_pos h]
  · intro h h0
    have habs : |y_max| * (1 / 10) ≠ 0 := by
      simp [abs_eq_zero, h0]
    rw [yPadOf, ySpanOf, if_neg (by simp [h]), if_pos habs]
    ring
  · intro h h0
    rw [yPadOf, ySpanOf, if_neg (by simp [h]), if_neg (by simp [h0])]
    norm_num

/-- C3 witness: for a series with minimum 1 and maximum 3 the pad is 15%
of the span, and for the constant series with value 2 the zero-span rule
applies. -/
theorem c3_y_axis_padding_witness :
    yPadOf 1 3 = (3 - 1) * (15 / 100) ∧ yPadOf 2 2 = |(2 : ℚ)| * (15 / 1000) :=
  ⟨(c3_y_axis_padding 1 3).2.1 (by norm_num),
   (c3_y_axis_padding 2 2).2.2.1 rfl (by norm_num)⟩

/-- Membership in the non-zero-change filter forces a non-zero
(defaulted) `percentage_change`. -/
theorem mem_regressedOf_nonzero :
    ∀ (e : Run) (nm : String × MetricSample),
      nm ∈ regressedOf e → nm.2.percentage_change.getD 0 ≠ 0 := by
  intro e nm h
  have h' := List.mem_filter.mp h
  simpa using h'.2

/-- The extractor loop emits, in order, exactly the non-zero metric maps
of the qualifying runs, whatever predecessor it starts from. -/
theorem extractFrom_map_regressed :
    ∀ (data : List Run) (prev : Option Run),
      (extractFrom prev data).map Changepoint.regressed_metrics
        = (data.filter (fun e => e.is_changepoint && !(regressedOf e).isEmpty)).map
            regressedOf := by
  intro data
  induction data with
  | nil => intro prev; rfl
  | cons e rest ih =>
    intro prev
    cases h1 : e.is_changepoint with
    | false => simp [extractFrom, h1, ih]
    | true =>
      cases h2 : (regressedOf e).isEmpty with
      | true =>
        have hreg : regressedOf e = [] := by simpa using h2
        simp [extractFrom, h1, h2, ih, hreg]
      | false => simp [extractFrom, h1, h2, ih, mkChangepoint]

/-- C5: `extract_changepoints` emits exactly one changepoint per run that
is flagged and has at least one non-zero metric, carrying exactly the
non-zero metrics of that run, in run order; every metric appearing in any
emitted changepoint has a non-zero (defaulted) `percentage_change`. -/
theorem c5_changepoint_extractor :
    ∀ (data : List Run),
      (extract_changepoints data).map Changepoint.regressed_metrics
        = (data.filter (fun e => e.is_changepoint && !(regressedOf e).isEmpty)).map
            regressedOf ∧
      ∀ cp ∈ extract_changepoints data, ∀ nm ∈ cp.regressed_metrics,
        nm.2.percentage_change.getD 0 ≠ 0 := by
  intro data
  refine ⟨extractFrom_map_regressed data none, ?_⟩
  intro cp hcp nm hnm
  have hmem : cp.regressed_metrics ∈ (extract_changepoints data).map
      Changepoint.regressed_metrics := List.mem_map_of_mem _ hcp
  unfold extract_changepoints at hmem
  rw [extractFrom_map_regressed data none] at hmem
  obtain ⟨e, _, he⟩ := List.mem_map.mp hmem
  exact mem_regressedOf_nonzero e nm (he ▸ hnm)

/-- C5 witness: on a one-run list with a flagged run whose metric changed
by 5, the extractor equation holds and the emitted metric's change is
non-zero. -/
theorem c5_changepoint_extractor_witness :
    (extract_changepoints [runCp]).map Changepoint.regressed_metrics
      = ([runCp].filter (fun e => e.is_changepoint && !(regressedOf e).isEmpty)).map
          regressedOf ∧
    ("podReadyLatency",
      ({ percentage_change := some 5, value := some (.float 3) } : MetricSample)
        ).2.percentage_change.getD 0 ≠ 0 :=
  ⟨(c5_changepoint_extractor [runCp]).1,
   (c5_changepoint_extractor [runCp]).2 (mkChangepoint none runCp) (by decide)
     _ (by decide)⟩

/-- C10: a metric sample lacking the `percentage_change` field defaults
to 0 and is never part of the regressed metrics; a run all of whose metric
samples lack the field contributes no changepoint, wherever it occurs. -/
theorem c10_missing_pct_field :
    ∀ (e : Run),
      (∀ nm ∈ e.metrics, nm.2.percentage_change = none → nm ∉ regressedOf e) ∧
      ((∀ nm ∈ e.metrics, nm.2.percentage_change = none) →
        (∀ (prev : Option Run) (rest : List Run),
          extractFrom prev (e :: rest) = extractFrom (some e) rest) ∧
        extract_changepoints [e] = []) := by
  intro e
  constructor
  · intro nm _ hnone hmem
    exact mem_regressedOf_nonzero e nm hmem (by simp [hnone])
  · intro hall
    have hreg : regressedOf e = [] := by
      rw [regressedOf, List.filter_eq_nil_iff]
      intro nm hnm
      simp [hall nm hnm]
    have hskip : ∀ (prev : Option Run) (rest : List Run),
        extractFrom prev (e :: rest) = extractFrom (some e) rest := by
      intro prev rest
      cases h1 : e.is_changepoint with
      | false => simp [extractFrom, h1]
      | true => simp [extractFrom, h1, hreg]
    exact ⟨hskip, by rw [extract_changepoints, hskip none []]; rfl⟩

/-- C10 witness: a flagged run whose only metric sample has no
`percentage_change` field yields no changepoint. -/
theorem c10_missing_pct_field_witness :
    extract_changepoints [runNoPct] = [] :=
  ((c10_missing_pct_field runNoPct).2 (by decide)).2

/-- C6: the resolved `previous_version` is the github-context previous
version when that is non-empty; otherwise it is the predecessor run's
`ocpVersion` (defaulting to `"unknown"`) when a predecessor exists; and
for the first run with no github previous version it is the empty string.
For a qualifying first run the emitted changepoint indeed carries `""`. -/
theorem c6_previous_version :
    ∀ (gp : Option String) (prev : Option Run) (p : Run) (e : Run) (rest : List Run),
      (gp.getD "" ≠ "" → resolve_previous gp prev = gp.getD "") ∧
      (gp.getD "" = "" → resolve_previous gp (some p) = p.ocpVersion.getD "unknown") ∧
      (gp.getD "" = "" → resolve_previous gp none = "") ∧
      (e.is_changepoint = true → (regressedOf e).isEmpty = false →
        (e.github_context.getD {}).previous_version.getD "" = "" →
        extract_changepoints (e :: rest)
            = mkChangepoint none e :: extractFrom (some e) rest ∧
          (mkChangepoint none e).previous_version = "") := by
  intro gp prev p e rest
  refine ⟨?_, ?_, ?_, ?_⟩
  · intro h
    simp [resolve_previous, h]
  · intro h
    simp [resolve_previous, h]
  · intro h
    simp [resolve_previous, h]
  · intro h1 h2 h3
    constructor
    · rw [extract_changepoints, extractFrom]
      simp [h1, h2]
    · show resolve_previous ((e.github_context.getD {}).previous_version) none = ""
      simp [resolve_previous, h3]

/-- C6 witness: the three branches of the resolution at concrete inputs,
and a qualifying first run with no github context yields `""`. -/
theorem c6_previous_version_witness :
    resolve_previous (some "4.19.0") (some runPrev) = "4.19.0" ∧
    resolve_previous none (some runPrev) = "4.18.0" ∧
    resolve_previous none none = "" ∧
    (mkChangepoint none runCp).previous_version = "" :=
  ⟨(c6_previous_version (some "4.19.0") (some runPrev) runPrev runCp []).1 (by decide),
   (c6_previous_version none (some runPrev) runPrev runCp []).2.1 rfl,
   (c6_previous_version none none runPrev runCp []).2.2.1 rfl,
   ((c6_previous_version none none runPrev runCp []).2.2.2 (by decide) (by decide)
     (by decide)).2⟩

/-- The first component of the report fold counts the workloads whose run
list is non-empty and yields at least one changepoint. -/
theorem foldl_reportStep_fst :
    ∀ (l : List (String × List Run)) (a b c : ℕ),
      (l.foldl reportStep (a, b, c)).1 = a + l.countP workloadRegressed := by
  intro l
  induction l with
  | nil => intro a b c; simp
  | cons wd rest ih =>
    intro a b c
    rw [List.foldl_cons, List.countP_cons]
    cases h1 : wd.2.isEmpty with
    | true =>
      have hw : workloadRegressed wd = false := by simp [workloadRegressed, h1]
      have hs : reportStep (a, b, c) wd = (a, b, c + 1) := by simp [reportStep, h1]
      rw [hw, hs, ih]
      simp
    | false =>
      cases h2 : (extract_changepoints wd.2).isEmpty with
      | true =>
        have hw : workloadRegressed wd = false := by simp [workloadRegressed, h1, h2]
        have hs : reportStep (a, b, c) wd = (a, b + 1, c) := by simp [reportStep, h1, h2]
        rw [hw, hs, ih]
        simp
      | false =>
        have hw : workloadRegressed wd = true := by simp [workloadRegressed, h1, h2]
        have hs : reportStep (a, b, c) wd = (a + 1, b, c) := by simp [reportStep, h1, h2]
        rw [hw, hs, ih]
        simp
        omega

/-- A workload is classified `REGRESSION DETECTED` exactly when its run
list is non-empty and yields at least one changepoint. -/
theorem classify_workload_regression_iff :
    ∀ (w : String) (d : List Run),
      classify_workload d = "REGRESSION DETECTED" ↔ workloadRegressed (w, d) = true := by
  intro w d
  cases h1 : d.isEmpty with
  | true => simp [classify_workload, workloadRegressed, h1]
  | false =>
    cases h2 : (extract_changepoints d).isEmpty with
    | true => simp [classify_workload, workloadRegressed, h1, h2]
    | false => simp [classify_workload, workloadRegressed, h1, h2]

/-- C8: the report renderer classifies an empty run list as SKIP, a
non-empty run list with no changepoints as PASS, anything else as
REGRESSION DETECTED, and returns true iff some workload in the mapping is
classified REGRESSION DETECTED. -/
theorem c8_generate_report :
    ∀ (json_data_by_workload : List (String × List Run)),
      classify_workload [] = "SKIP (no data)" ∧
      (∀ d : List Run, d ≠ [] → extract_changepoints d = [] →
        classify_workload d = "PASS (no changepoints)") ∧
      (∀ d : List Run, d ≠ [] → extract_changepoints d ≠ [] →
        classify_workload d = "REGRESSION DETECTED") ∧
      (generate_report json_data_by_workload = true ↔
        ∃ wd ∈ json_data_by_workload, classify_workload wd.2 = "REGRESSION DETECTED") := by
  intro m
  refine ⟨rfl, ?_, ?_, ?_⟩
  · intro d h1 h2
    simp [classify_workload, h1, h2]
  · intro d h1 h2
    simp [classify_workload, h1, h2]
  · have hperm := List.mergeSort_perm m (fun a b => decide (a.1 ≤ b.1))
    rw [generate_report]
    simp only [reportCounts, foldl_reportStep_fst, Nat.zero_add, decide_eq_true_eq,
      hperm.countP_eq, List.countP_pos_iff]
    constructor
    · rintro ⟨wd, hmem, hwd⟩
      exact ⟨wd, hmem, (classify_workload_regression_iff wd.1 wd.2).mpr hwd⟩
    · rintro ⟨wd, hmem, hwd⟩
      exact ⟨wd, hmem, (classify_workload_regression_iff wd.1 wd.2).mp hwd⟩

/-- C8 witness: a non-flagged run yields PASS, and a one-workload mapping
whose run is a real changepoint makes the report return true. -/
theorem c8_generate_report_witness :
    classify_workload [runPlain] = "PASS (no changepoints)" ∧
    generate_report [("cluster-density", [runCp])] = true :=
  ⟨(c8_generate_report []).2.1 [runPlain] (by decide) (by decide),
   (c8_generate_report [("cluster-density", [runCp])]).2.2.2.mpr
     ⟨("cluster-density", [runCp]), by decide,
      (c8_generate_report []).2.2.1 [runCp] (by decide) (by decide)⟩⟩

/-- The empty string is a substring of every string (Python's `"" in s`
is always true). -/
theorem containsSub_nil :
    ∀ (l : List Char), containsSub [] l = true := by
  intro l
  induction l with
  | nil => rfl
  | cons x xs ih => simp [containsSub, startsWithChars]

/-- C1 counterexample: the reference URL `"short/url"` has only 2 path
segments, yet with the non-empty component set `{"ovn-kubernetes"}` the
correlator places it in the matching (related) list, not in the other
list. -/
theorem c1_counterexample :
    (splitOnChar '/' (dropTrailing '/' "short/url".data)).length < 4 ∧
    sort_prs_by_relevance ["short/url"] ["ovn-kubernetes"]
      = (["short/url"], []) := by
  constructor
  · decide
  · decide

/-- C1 (amended): a reference URL with fewer than 4 path segments gets
`repo_name = ""`, and the correlator places it in the other list iff the
component set is empty; with any non-empty component set the empty
`repo_name` is a substring of every token, so the URL lands in the
related list.  The classification is total (never raises). -/
theorem c1_short_url_routing :
    ∀ (url : String) (components : List String),
      (splitOnChar '/' (dropTrailing '/' url.data)).length < 4 →
      repoNameOf url = "" ∧
      sort_prs_by_relevance [url] components
        = if components.isEmpty then ([], [url]) else ([url], []) := by
  intro url components h
  have hrepo : repoNameOf url = "" := by
    rw [repoNameOf, if_neg (by omega)]
  refine ⟨hrepo, ?_⟩
  cases components with
  | nil => simp [sort_prs_by_relevance, prMatches]
  | cons comp rest =>
    have hmatch : prMatches (comp :: rest) url = true := by
      rw [prMatches]
      simp only [List.any_cons, Bool.or_eq_true]
      left
      rw [hrepo]
      right
      exact containsSub_nil comp.data
    simp [sort_prs_by_relevance, hmatch]

/-- C1 witness: with an empty component set, the 2-segment URL `"a/b"`
has empty `repo_name` and is routed to the other list. -/
theorem c1_short_url_routing_witness :
    repoNameOf "a/b" = "" ∧
    sort_prs_by_relevance ["a/b"] [] = ([], ["a/b"]) := by
  have h := c1_short_url_routing "a/b" [] (by decide)
  exact ⟨h.1, by rw [h.2]; rfl⟩

/-- C2: evaluating the label/component extractor on a changepoint whose
single regressed metric carries the labels string
`"[Jira: Networking / ovn-kubernetes]"`: the `jira:` prefix survives as
part of the token `"jira: networking"` because the discard rule only
matches a standalone segment, so the result is not
`{"networking", "ovn-kubernetes"}`. -/
theorem c2_label_extraction_eval :
    extract_components [("podReadyLatency", sampleJira)]
      = ["jira: networking", "ovn-kubernetes"] ∧
    "networking" ∉ extract_components [("podReadyLatency", sampleJira)] := by
  constructor
  · decide
  · decide

/-- C7: the value formatter returns non-float inputs as their direct
string form; floats with `|v| ≥ 1,000,000` in thousands-grouped
zero-decimal form; floats with `1 ≤ |v| < 1,000,000` in fixed 4-decimal
form; floats with `|v| < 1` in fixed 10-decimal form with trailing zeros
and a bare trailing point stripped; and on the four reference inputs it
returns `"1,234,567"`, `"12.3457"`, `"0.000012345"` and `"0"`. -/
theorem c7_value_formatter :
    (∀ s : String, format_metric_value (.strv s) = s) ∧
    (∀ q : ℚ, 1000000 ≤ |q| → format_metric_value (.float q) = formatGrouped q) ∧
    (∀ q : ℚ, 1 ≤ |q| → |q| < 1000000 → format_metric_value (.float q) = formatFixed q 4) ∧
    (∀ q : ℚ, |q| < 1 →
      format_metric_value (.float q) = stripTrailingZerosDot (formatFixed q 10)) ∧
    format_metric_value (.float 1234567) = "1,234,567" ∧
    format_metric_value (.float (12345678 / 1000000)) = "12.3457" ∧
    format_metric_value (.float (12345 / 1000000000)) = "0.000012345" ∧
    format_metric_value (.float 0) = "0" := by
  refine ⟨fun s => rfl, ?_, ?_, ?_, ?_, ?_, ?_, ?_⟩
  · intro q h
    rw [format_metric_value, if_pos h]
  · intro q h1 h2
    rw [format_metric_value, if_neg (not_le.mpr h2), if_pos h1]
  · intro q h
    rw [format_metric_value, if_neg (not_le.mpr (h.trans (by norm_num))),
      if_neg (not_le.mpr h)]
  · have h1 : roundHalfEven (|(1234567 : ℚ)|) = 1234567 := by
      rw [roundHalfEven]
      norm_num
    rw [format_metric_value, if_pos (by norm_num : (1000000 : ℚ) ≤ |1234567|),
      formatGrouped, h1, if_neg (by norm_num : ¬(1234567 : ℚ) < 0)]
    decide
  · have habs : |((12345678 : ℚ) / 1000000)| = 12345678 / 1000000 :=
      abs_of_pos (by norm_num)
    have h1 : roundHalfEven (|((12345678 : ℚ) / 1000000)| * 10 ^ 4) = 123457 := by
      rw [roundHalfEven, habs]
      norm_num
    rw [format_metric_value,
      if_neg (by rw [habs]; norm_num : ¬(1000000 : ℚ) ≤ |(12345678 : ℚ) / 1000000|),
      if_pos (by rw [habs]; norm_num : (1 : ℚ) ≤ |(12345678 : ℚ) / 1000000|),
      formatFixed, h1, if_neg (by norm_num : ¬(12345678 : ℚ) / 1000000 < 0)]
    decide
  · have habs : |((12345 : ℚ) / 1000000000)| = 12345 / 1000000000 :=
      abs_of_pos (by norm_num)
    have h1 : roundHalfEven (|((12345 : ℚ) / 1000000000)| * 10 ^ 10) = 123450 := by
      rw [roundHalfEven, habs]
      norm_num
    rw [format_metric_value,
      if_neg (by rw [habs]; norm_num : ¬(1000000 : ℚ) ≤ |(12345 : ℚ) / 1000000000|),
      if_neg (by rw [habs]; norm_num : ¬(1 : ℚ) ≤ |(12345 : ℚ) / 1000000000|),
      formatFixed, h1, if_neg (by norm_num : ¬(12345 : ℚ) / 1000000000 < 0)]
    decide
  · have h1 : roundHalfEven (|(0 : ℚ)| * 10 ^ 10) = 0 := by
      rw [roundHalfEven]
      norm_num
    rw [format_metric_value, if_neg (by norm_num : ¬(1000000 : ℚ) ≤ |(0 : ℚ)|),
      if_neg (by norm_num : ¬(1 : ℚ) ≤ |(0 : ℚ)|), formatFixed, h1,
      if_neg (by norm_num : ¬(0 : ℚ) < 0)]
    decide

/-- C7 witness: the branch clauses applied at `2000000`, `2` and `1/2`. -/
theorem c7_value_formatter_witness :
    format_metric_value (.float 2000000) = formatGrouped 2000000 ∧
    format_metric_value (.float 2) = formatFixed 2 4 ∧
    format_metric_value (.float (1 / 2)) = stripTrailingZerosDot (formatFixed (1 / 2) 10) :=
  ⟨c7_value_formatter.2.1 2000000 (by norm_num),
   c7_value_formatter.2.2.1 2 (by norm_num) (by norm_num),
   c7_value_formatter.2.2.2.1 (1 / 2)
     (by rw [abs_of_pos (by norm_num : (0 : ℚ) < 1 / 2)]; norm_num)⟩
